import Mathlib

/-!
Shallow embedding of `securecrt_tools/sessions.py` (class `CRTSession`), the
device-interaction engine of the SecureCRT tools repository.

The SecureCRT `tab` object supplies blocking pattern-match primitives
(`Send`, `WaitForString`, `ReadString` returning a `MatchIndex`).  Here a
channel is scripted: each model takes the sequence of results those
primitive calls would return, and produces the values the Python code
computes plus a trace of the `Send` payloads it would emit.  Python
exceptions are modelled as explicit outcome constructors.
-/

set_option autoImplicit false

namespace Sessions

/-! ### Python string helpers -/

/-- Characters stripped by Python `str.strip()` with no argument. -/
def pyWhitespace : List Char := [' ', '\t', '\n', '\r', '\x0b', '\x0c']

/-- Strip the characters of `cs` from both ends of a character list,
as Python `str.strip(cs)` does. -/
def stripChars (cs : List Char) (l : List Char) : List Char :=
  ((l.dropWhile (fun c => cs.contains c)).reverse.dropWhile
    (fun c => cs.contains c)).reverse

/-- Python `s.strip()`: remove leading/trailing whitespace. -/
def pyStrip (s : String) : String := ⟨stripChars pyWhitespace s.data⟩

/-- Python `s.strip` with argument CR LF: remove leading/trailing CR and LF characters. -/
def stripCRLF (s : String) : String := ⟨stripChars ['\r', '\n'] s.data⟩

/-- Python `s.encode` with codec ascii and errors ignore: drop every non-7-bit character. -/
def asciiIgnore (s : String) : String := ⟨s.data.filter (fun c => c.toNat < 128)⟩

/-- Python `s.replace("\r", "")`: remove every carriage return. -/
def stripCR (s : String) : String := ⟨s.data.filter (fun c => c ≠ '\r')⟩

/-- Decide whether `n` occurs as a contiguous substring of the character
list; used to embed the Python `in` test on strings. -/
def substrAux (n : List Char) : List Char → Bool
  | [] => n.isEmpty
  | c :: rest => n.isPrefixOf (c :: rest) || substrAux n rest

/-- Python `needle in hay` for strings. -/
def isSubstr (needle hay : String) : Bool := substrAux needle.data hay.data

/-- Python truthiness of an optional string (`None` and `""` are falsy). -/
def pyTruthy : Option String → Bool
  | none => false
  | some s => !(s == "")

/-- Python format of an optional string: `None` prints as `"None"`. -/
def pyStr : Option String → String
  | none => "None"
  | some s => s

/-! ### Prompt discovery (`CRTSession.__get_prompt`, lines 305-338)

After `WaitForString("\n", 5)` succeeds, the captured line is stripped and
validated by indexing `prompt[-1]` and `prompt[-2]`.  Python raises
`IndexError` when the index is out of range; the validation otherwise
raises `DeviceInteractionError` (after calling `self.end()`, whose terminal
side effects are irrelevant to the returned value) or returns the prompt. -/

inductive PromptCheck where
  | ok (prompt : String)
  | deviceError (msg : String)
  | indexError
  deriving Repr, DecidableEq

/-- Python `s[-1]` once the length guard has ruled out the empty string. -/
def pyLast (p : String) : Char := p.data.getLastD ' '

/-- Python `s[-2]` once the length guard has ruled out strings shorter
than two characters. -/
def pySecondLast (p : String) : Char := p.data.getD (p.data.length - 2) ' '

/-- Embedding of the validation chain of `__get_prompt` (lines 324-335),
applied to the already-stripped prompt text.  The `indexError` branches
record exactly where the Python negative indexing would fall out of range. -/
def validatePrompt (p : String) : PromptCheck :=
  if p.length = 0 then .indexError
  else if pyLast p = '>' then .deviceError "Not in enable mode.  Cannot continue."
  else if p.length < 2 then .indexError
  else if pySecondLast p = ')' then .deviceError "Device already in config mode."
  else if pyLast p ≠ '#' then .deviceError "Unable to capture prompt."
  else .ok p

/-- Embedding of line 266, `self.hostname = self.prompt[:-1]`: the Python
slice keeps every character but the last. -/
def hostname_of (prompt : String) : String := ⟨prompt.data.dropLast⟩

/-! ### OS discovery (`CRTSession.__get_network_os`, lines 340-361) -/

/-- Embedding of the ordered substring classification of the
`show version | i Cisco` output; `.error` models the raised
`OSDetectError`. -/
def get_network_os (raw : String) : Except String String :=
  if isSubstr "IOS XE" raw then .ok "IOS"
  else if isSubstr "Cisco IOS Software" raw ||
      isSubstr "Cisco Internetwork Operating System" raw then .ok "IOS"
  else if isSubstr "Cisco Nexus Operating System" raw then .ok "NXOS"
  else if isSubstr "Adaptive Security Appliance" raw then .ok "ASA"
  else .error "Unknown or Unsupported device OS."

/-! ### Output capture (`CRTSession.write_output_to_file`, lines 577-648)

The loop body calls `ReadString(matches, 30)` with
`matches = ["\r\n", pagerToken, self.prompt]` (pager token `--More--` for
IOS/NXOS, `<--- More --->` for ASA) and branches on `MatchIndex`
(1 = line terminator, 2 = pager token, 3 = prompt, 0 = timeout).  A
scripted channel is the list of successive `ReadString` results, after
`WaitForString(command.strip(), 30)` has consumed the echo of the command
(the Python code ignores the result of that call). -/

inductive CaptureEvent where
  | lineEnd (s : String)
  | pager (s : String)
  | promptEnd (s : String)
  | timeout
  deriving Repr, DecidableEq

/-- Match of the compiled regex of line 595 (a space, backspaces, spaces,
backspaces, then a named group `line`)
against the start of a line: a space, then one or more backspaces, one or
more spaces, one or more backspaces; the captured group is the remaining
text up to the first line feed.  Returns `none` when the pattern does not
match at the start, as `re.match` does. -/
def moreMatchAux (c : Char) (l : List Char) : Option (List Char) :=
  match l with
  | c' :: rest => if c' = c then some (rest.dropWhile (fun x => x = c)) else none
  | [] => none

/-- Result of `re_more.match(nextline)` followed by taking the group `line`. -/
def moreMatch (s : String) : Option String :=
  match s.data with
  | ' ' :: rest =>
    (moreMatchAux '\x08' rest).bind fun r1 =>
    (moreMatchAux ' ' r1).bind fun r2 =>
    (moreMatchAux '\x08' r2).map fun r3 => (⟨r3.takeWhile (fun c => c ≠ '\n')⟩ : String)
  | _ => none

/-- The per-line processing of the `MatchIndex == 1` branch (lines 622-636):
strip CR/LF, discard lines that are then empty, strip the pager backspace
artifact, strip CR/LF again and re-encode as ASCII.  `some out` means `out`
followed by `"\r\n"` is written to the sink; `none` means nothing is
written. -/
def processLine (raw : String) : Option String :=
  let s1 := stripCRLF raw
  if s1 = "" then none
  else some (asciiIgnore (stripCRLF ((moreMatch s1).getD s1)))

/-- One run of the capture loop over a scripted channel: the emitted sink
lines and the `Send` payloads of the loop (a single space per pager match),
or the message of the raised `DeviceInteractionError`.  An exhausted script
behaves like a `ReadString` timeout (`MatchIndex` 0). -/
def captureLoop : List CaptureEvent → Except String (List String × List String)
  | [] => .error "Timeout trying to capture output"
  | ev :: rest =>
    match ev with
    | .lineEnd s =>
      match processLine s with
      | some out => (captureLoop rest).map (fun r => (out :: r.1, r.2))
      | none => captureLoop rest
    | .pager _ => (captureLoop rest).map (fun r => (r.1, " " :: r.2))
    | .promptEnd _ => .ok ([], [])
    | .timeout => .error "Timeout trying to capture output"

structure CaptureResult where
  sink : List String
  sent : List String
  deriving Repr, DecidableEq

/-- Embedding of `write_output_to_file`: send the command, skip its echo,
then run the capture loop.  `sink` is the list of lines written to the
file (each written with a trailing `"\r\n"`), `sent` the `Send` payloads in
order. -/
def write_output_to_file (command : String) (events : List CaptureEvent) :
    Except String CaptureResult :=
  (captureLoop events).map (fun r => ⟨r.1, (command ++ "\n") :: r.2⟩)

/-- The text of a line event, for stating which lines a script carries. -/
def eventLine : CaptureEvent → Option String
  | .lineEnd s => some s
  | _ => none

/-- Whether an event is a pager-token match. -/
def isPagerEvent : CaptureEvent → Bool
  | .pager _ => true
  | _ => false

/-- Whether an event is a line or pager event (neither prompt nor timeout). -/
def nonTerminal : CaptureEvent → Bool
  | .lineEnd _ => true
  | .pager _ => true
  | _ => false

/-- A line event is clean when its text is empty or passes through the
per-line processing unchanged (no surrounding CR/LF, no pager backspace
artifact, 7-bit characters only). -/
def cleanLineEvent : CaptureEvent → Bool
  | .lineEnd s => s == "" || processLine s == some s
  | _ => true

/-- A line event is free of the pager token `tok`. -/
def tokFree (tok : String) : CaptureEvent → Bool
  | .lineEnd s => !(isSubstr tok s)
  | _ => true

/-! ### Config push (`CRTSession.send_config_commands`, lines 697-733)

`command_list.insert(0, "configure terminal")` mutates the list owned by the caller;
then for each command the code sends `"{command}\n"` and calls
`ReadString(")#", 3)`, which returns the text preceding the match, or the
empty string on timeout.  An empty result raises `DeviceInteractionError`
naming the command.  After the loop, `"end\n"` is sent and
`ReadString(self.prompt, 2)` captures the final segment; the concatenated
results, with every `'\r'` removed, are written to the output file.  The
scripted channel supplies the successive `ReadString(")#", 3)` results in
`acks` (an exhausted script yields `""`, a timeout) and the final
`ReadString(self.prompt, 2)` result in `finalRead`. -/

/-- Timeout passed to `ReadString(")#", 3)` for each config command. -/
def configAckTimeout : Nat := 3

/-- Timeout passed to `ReadString(self.prompt, 2)` after sending `end`. -/
def configEndTimeout : Nat := 2

structure ConfigLoopResult where
  sent : List String
  acc : String
  errorMsg : Option String
  reads : List (String × Nat)
  deriving Repr

/-- The `for command in command_list` loop (lines 717-725): sends, the
accumulated `config_results`, the raised error message if any, and the
trace of `ReadString` calls as (pattern, timeout) pairs. -/
def configLoop : List String → List String → ConfigLoopResult
  | [], _ => ⟨[], "", none, []⟩
  | c :: cs, acks =>
    let out := acks.headD ""
    if out = "" then
      ⟨[c ++ "\n"], "",
        some ("Did not receive expected prompt after issuing command: " ++ c),
        [(")#", configAckTimeout)]⟩
    else
      let rest := configLoop cs acks.tail
      ⟨(c ++ "\n") :: rest.sent, out ++ ")#" ++ rest.acc, rest.errorMsg,
        (")#", configAckTimeout) :: rest.reads⟩

structure ConfigResult where
  newList : List String
  sent : List String
  reads : List (String × Nat)
  outcome : Except String String
  deriving Repr

/-- Embedding of `send_config_commands`.  `newList` is the list owned by the caller
after the in-place `insert(0, "configure terminal")`; `outcome` is either
the raised `DeviceInteractionError` message or the text written to the
output file. -/
def send_config_commands (prompt : String) (command_list : List String)
    (acks : List String) (finalRead : String) : ConfigResult :=
  let mutated := "configure terminal" :: command_list
  let loop := configLoop mutated acks
  { newList := mutated
    sent := match loop.errorMsg with
      | some _ => loop.sent
      | none => loop.sent ++ ["end\n"]
    reads := match loop.errorMsg with
      | some _ => loop.reads
      | none => loop.reads ++ [(prompt, configEndTimeout)]
    outcome := match loop.errorMsg with
      | some m => .error m
      | none => .ok (stripCR (loop.acc ++ finalRead ++ prompt)) }

/-- The raw transcript accumulated by a fully successful config push, as
described by the spec: for each command the observed response segment followed by
the re-appended `)#` acknowledgment, then the final segment and the prompt
are appended by the caller of this definition. -/
def ackSegments : List String → List String → String
  | [], _ => ""
  | _ :: cs, acks => acks.headD "" ++ ")#" ++ ackSegments cs acks.tail

/-! ### Disconnect (`CRTSession.disconnect`, lines 487-499)

After the graceful `exit` is sent and echoed, the loop
`while self.is_connected() and attempts < 10` issues
`self.crt.Session.Disconnect()` each iteration; `attempts >= 10` at exit
raises `ConnectError`.  The channel is scripted by `c : Nat → Bool`, the
result of the `k`-th `is_connected()` poll (`k = 0` is the poll before any
forced attempt).  The loop runs at most 10 iterations, so fuel 11 is
exact. -/

def disconnectLoop (c : Nat → Bool) : Nat → Nat → Nat
  | attempts, 0 => attempts
  | attempts, fuel + 1 =>
    if c attempts ∧ attempts < 10 then disconnectLoop c (attempts + 1) fuel
    else attempts

/-- Number of forced `Session.Disconnect()` calls the loop performs. -/
def disconnect_attempts (c : Nat → Bool) : Nat := disconnectLoop c 0 11

/-- Embedding of `disconnect`: the raised `ConnectError` message, or the
number of forced-disconnect attempts on normal return. -/
def disconnect (c : Nat → Bool) : Except String Nat :=
  if disconnect_attempts c ≥ 10 then .error "Unable to disconnect from session."
  else .ok (disconnect_attempts c)

/-! ### Session end (`CRTSession.end`, lines 510-548)

Under a non-null `crt` and `tab`, a truthy prompt and the `modify term`
setting, the terminal-restore commands are sent.  For IOS/NXOS the length
and width restores are each guarded by the truthiness of the saved value;
for ASA `terminal pager {0}` is sent unconditionally, so a `None` saved
length is formatted into the command text.  Only `Send` payloads are
traced (the interleaved `WaitForString(self.prompt)` calls return no
data). -/

def end_sends (os promptOpt term_len term_width : Option String)
    (modifyTerm : Bool) : List String :=
  if pyTruthy promptOpt then
    if modifyTerm then
      if os = some "IOS" ∨ os = some "NXOS" then
        (if pyTruthy term_len then ["term length " ++ pyStr term_len ++ "\n"] else []) ++
        (if pyTruthy term_width then ["term width " ++ pyStr term_width ++ "\n"] else [])
      else if os = some "ASA" then
        ["terminal pager " ++ pyStr term_len ++ "\n"]
      else []
    else []
  else []

/-! ### Prompt discovery and session start
(`CRTSession.__get_prompt` lines 305-338, `CRTSession.__start` lines
253-303)

`__get_prompt` sends two line feeds, then `WaitForString("\n", 5)`; on
timeout it returns `None` (modelled `none`), otherwise it validates the
stripped `ReadString("\n", 5)` text.  `__start` assigns the result to
`self.prompt` and immediately evaluates `self.prompt[:-1]`: when the
result was `None`, Python raises an unguarded `TypeError` there, before
the `show version | i Cisco` OS probe can run. -/

structure PromptProbe where
  newlineSeen : Bool
  lineText : String
  deriving Repr, DecidableEq

/-- Embedding of `__get_prompt`: `none` models the `return None` of the
timeout branch, `some r` the validation outcome on the stripped text. -/
def get_prompt (t : PromptProbe) : Option PromptCheck :=
  if t.newlineSeen then some (validatePrompt (pyStrip t.lineText)) else none

inductive StartOutcome where
  | ready (prompt hostname os : String)
  | deviceError (msg : String)
  | osDetectError (msg : String)
  | indexError
  | typeError
  deriving Repr, DecidableEq

structure StartTrace where
  outcome : StartOutcome
  hostnameDerived : Bool
  osDiscoveryRan : Bool
  deriving Repr, DecidableEq

/-- Embedding of `__start` through OS discovery (lines 264-271):
`hostnameDerived` records whether the statement
`self.hostname = self.prompt[:-1]` was executed, `osDiscoveryRan` whether
the `show version | i Cisco` probe was issued.  The terminal-size and
terminal-mode steps that follow a successful OS discovery do not affect
these fields. -/
def start_session (t : PromptProbe) (versionText : String) : StartTrace :=
  match get_prompt t with
  | some (.deviceError m) => ⟨.deviceError m, false, false⟩
  | some .indexError => ⟨.indexError, false, false⟩
  | some (.ok p) =>
    match get_network_os versionText with
    | .ok os => ⟨.ready p (hostname_of p) os, true, true⟩
    | .error m => ⟨.osDetectError m, true, true⟩
  | none => ⟨.typeError, true, false⟩

/-! ## Theorems -/

/-! ### Shared helper lemmas -/

theorem dropLast_append_getLastD (d : Char) :
    ∀ (l : List Char), l ≠ [] → l.dropLast ++ [l.getLastD d] = l
  | [a], _ => rfl
  | a :: b :: t, _ => by
    have ih := dropLast_append_getLastD d (b :: t) (by simp)
    simpa using ih

/-- The filter embedding `stripCR` leaves no carriage return behind. -/
theorem stripCR_no_cr (s : String) : (stripCR s).data.count '\r' = 0 := by
  rw [List.count_eq_zero]
  intro hmem
  rcases List.mem_filter.mp hmem with ⟨-, hdec⟩
  simp at hdec

/-- The filter embedding `stripCR` preserves every line feed. -/
theorem stripCR_keeps_lf (s : String) :
    (stripCR s).data.count '\n' = s.data.count '\n' :=
  List.count_filter (by decide)

/-! ### C2: prompt validation -/

/-- C2: for every cleaned prompt string long enough for both negative
indexes of the source to be in range, the validation raises the
enable-mode error when the last character is `>`, the config-mode error
when the second-to-last character is `)`, the capture error when the last
character is not `#`, and otherwise accepts the prompt, the hostname being
the prompt with its final character removed. -/
theorem C2_prompt_validation (p : String) (h : 2 ≤ p.length) :
    (pyLast p = '>' →
      validatePrompt p = .deviceError "Not in enable mode.  Cannot continue.") ∧
    (pyLast p ≠ '>' → pySecondLast p = ')' →
      validatePrompt p = .deviceError "Device already in config mode.") ∧
    (pyLast p ≠ '>' → pySecondLast p ≠ ')' → pyLast p ≠ '#' →
      validatePrompt p = .deviceError "Unable to capture prompt.") ∧
    (pyLast p = '#' → pySecondLast p ≠ ')' →
      validatePrompt p = .ok p ∧ (hostname_of p).data ++ [pyLast p] = p.data) := by
  have h0 : ¬ p.length = 0 := by omega
  have h2 : ¬ p.length < 2 := by omega
  refine ⟨?_, ?_, ?_, ?_⟩
  · intro hgt
    simp [validatePrompt, h0, hgt]
  · intro hngt hpar
    simp [validatePrompt, h0, h2, hngt, hpar]
  · intro hngt hnpar hnhash
    simp [validatePrompt, h0, h2, hngt, hnpar, hnhash]
  · intro hhash hnpar
    have hngt : ¬ pyLast p = '>' := by rw [hhash]; decide
    have hne : p.data ≠ [] := by
      intro hnil
      have : p.length = 0 := by
        show p.data.length = 0
        simp [hnil]
      omega
    refine ⟨by simp [validatePrompt, h0, h2, hngt, hnpar, hhash], ?_⟩
    simpa [hostname_of, pyLast] using dropLast_append_getLastD ' ' p.data hne

theorem C2_prompt_validation_witness :
    validatePrompt "Router#" = .ok "Router#" ∧
    (hostname_of "Router#").data ++ [pyLast "Router#"] = "Router#".data ∧
    hostname_of "Router#" = "Router" ∧
    validatePrompt "Router>" = .deviceError "Not in enable mode.  Cannot continue." ∧
    validatePrompt "Router(config)#" = .deviceError "Device already in config mode." := by
  have h1 := (C2_prompt_validation "Router#" (by decide)).2.2.2 (by decide) (by decide)
  have h2 := (C2_prompt_validation "Router>" (by decide)).1 (by decide)
  have h3 := (C2_prompt_validation "Router(config)#" (by decide)).2.1 (by decide) (by decide)
  exact ⟨h1.1, h1.2, by decide, h2, h3⟩

/-! ### C9: unguarded IndexError on short cleaned prompts -/

/-- C9: a cleaned prompt of length 0, or of length 1 other than `">"`,
drives the validation into an out-of-range negative index, so discovery
raises `IndexError` rather than any `DeviceInteractionError`. -/
theorem C9_short_prompt_index_error (p : String)
    (h : p.length = 0 ∨ (p.length = 1 ∧ p ≠ ">")) :
    validatePrompt p = .indexError ∧
    ∀ msg, validatePrompt p ≠ .deviceError msg := by
  have hmain : validatePrompt p = .indexError := by
    rcases h with h0 | ⟨h1, hne⟩
    · simp [validatePrompt, h0]
    · obtain ⟨c, hc⟩ := List.length_eq_one.mp (show p.data.length = 1 from h1)
      have h0 : ¬ p.length = 0 := by omega
      have hlt : p.length < 2 := by omega
      have hcn : ¬ pyLast p = '>' := by
        intro hgt
        apply hne
        apply String.ext
        have hcg : c = '>' := by simpa [pyLast, hc] using hgt
        rw [hc, hcg]
      simp [validatePrompt, h0, hcn, hlt]
  exact ⟨hmain, fun msg h' => by simp [hmain] at h'⟩

theorem C9_short_prompt_index_error_witness :
    validatePrompt "" = .indexError ∧
    validatePrompt "#" = .indexError ∧
    validatePrompt "R" = .indexError :=
  ⟨(C9_short_prompt_index_error "" (Or.inl (by decide))).1,
   (C9_short_prompt_index_error "#" (Or.inr ⟨by decide, by decide⟩)).1,
   (C9_short_prompt_index_error "R" (Or.inr ⟨by decide, by decide⟩)).1⟩

/-! ### C4: OS classification -/

/-- C4: the version text is classified by ordered substring checks, with
`IOS XE` and the two classic IOS signatures mapping to IOS, the Nexus
signature to NXOS, the ASA signature to ASA, and anything else raising the
OS-detection error. -/
theorem C4_os_classification (raw : String) :
    (isSubstr "IOS XE" raw = true → get_network_os raw = .ok "IOS") ∧
    (isSubstr "Cisco IOS Software" raw = true ∨
       isSubstr "Cisco Internetwork Operating System" raw = true →
      get_network_os raw = .ok "IOS") ∧
    (isSubstr "IOS XE" raw = false → isSubstr "Cisco IOS Software" raw = false →
      isSubstr "Cisco Internetwork Operating System" raw = false →
      isSubstr "Cisco Nexus Operating System" raw = true →
      get_network_os raw = .ok "NXOS") ∧
    (isSubstr "IOS XE" raw = false → isSubstr "Cisco IOS Software" raw = false →
      isSubstr "Cisco Internetwork Operating System" raw = false →
      isSubstr "Cisco Nexus Operating System" raw = false →
      isSubstr "Adaptive Security Appliance" raw = true →
      get_network_os raw = .ok "ASA") ∧
    (isSubstr "IOS XE" raw = false → isSubstr "Cisco IOS Software" raw = false →
      isSubstr "Cisco Internetwork Operating System" raw = false →
      isSubstr "Cisco Nexus Operating System" raw = false →
      isSubstr "Adaptive Security Appliance" raw = false →
      get_network_os raw = .error "Unknown or Unsupported device OS.") := by
  refine ⟨?_, ?_, ?_, ?_, ?_⟩
  · intro h1
    simp [get_network_os, h1]
  · intro h2
    by_cases h1 : isSubstr "IOS XE" raw = true
    · simp [get_network_os, h1]
    · have h1f : isSubstr "IOS XE" raw = false := by simpa using h1
      rcases h2 with h2a | h2b
      · simp [get_network_os, h1f, h2a]
      · simp [get_network_os, h1f, h2b]
  · intro h1 h2 h3 h4
    simp [get_network_os, h1, h2, h3, h4]
  · intro h1 h2 h3 h4 h5
    simp [get_network_os, h1, h2, h3, h4, h5]
  · intro h1 h2 h3 h4 h5
    simp [get_network_os, h1, h2, h3, h4, h5]

theorem C4_os_classification_witness :
    get_network_os "Cisco Nexus Operating System (NX-OS) Software" = .ok "NXOS" ∧
    get_network_os "Cisco IOS XE Software, Version 16" = .ok "IOS" ∧
    get_network_os "Cisco Adaptive Security Appliance Software" = .ok "ASA" ∧
    get_network_os "GNU/Linux" = .error "Unknown or Unsupported device OS." :=
  ⟨(C4_os_classification _).2.2.1 (by decide) (by decide) (by decide) (by decide),
   (C4_os_classification _).1 (by decide),
   (C4_os_classification _).2.2.2.1 (by decide) (by decide) (by decide) (by decide)
     (by decide),
   (C4_os_classification _).2.2.2.2 (by decide) (by decide) (by decide) (by decide)
     (by decide)⟩

/-! ### C6: bounded forced-disconnect retry -/

theorem disconnectLoop_all_connected (c : Nat → Bool)
    (hc : ∀ k, k < 10 → c k = true) :
    ∀ (fuel a : Nat), a ≤ 10 → 10 ≤ a + fuel → disconnectLoop c a fuel = 10 := by
  intro fuel
  induction fuel with
  | zero =>
    intro a h1 h2
    have ha : a = 10 := by omega
    simp [disconnectLoop, ha]
  | succ n ih =>
    intro a h1 h2
    by_cases ha : a < 10
    · have hca := hc a ha
      simp only [disconnectLoop, hca, ha, and_true, if_pos, true_and, if_true]
      exact ih (a + 1) (by omega) (by omega)
    · have ha10 : a = 10 := by omega
      subst ha10
      simp [disconnectLoop]

theorem disconnectLoop_first_false (c : Nat → Bool) (k : Nat) (hk : k < 10)
    (hck : c k = false) (hprev : ∀ j, j < k → c j = true) :
    ∀ (fuel a : Nat), a ≤ k → k < a + fuel → disconnectLoop c a fuel = k := by
  intro fuel
  induction fuel with
  | zero =>
    intro a h1 h2
    omega
  | succ n ih =>
    intro a h1 h2
    by_cases hak : a = k
    · subst hak
      simp [disconnectLoop, hck]
    · have halt : a < k := by omega
      have hca := hprev a halt
      have ha10 : a < 10 := by omega
      simp only [disconnectLoop, hca, ha10, and_true, if_pos, true_and, if_true]
      exact ih (a + 1) (by omega) (by omega)

/-- C6: a channel that reports connected at every poll causes exactly 10
forced-disconnect attempts and then the connect error; a channel whose
first disconnected poll comes at index `k < 10` makes `disconnect` return
normally after exactly `k` forced attempts. -/
theorem C6_disconnect_bounded_retry (c : Nat → Bool) :
    ((∀ k, k < 10 → c k = true) →
      disconnect_attempts c = 10 ∧
      disconnect c = .error "Unable to disconnect from session.") ∧
    (∀ k, k < 10 → c k = false → (∀ j, j < k → c j = true) →
      disconnect_attempts c = k ∧ disconnect c = .ok k) := by
  constructor
  · intro hc
    have ha : disconnect_attempts c = 10 :=
      disconnectLoop_all_connected c hc 11 0 (by omega) (by omega)
    refine ⟨ha, ?_⟩
    simp only [disconnect, ha]
    rw [if_pos (by omega)]
  · intro k hk hck hprev
    have ha : disconnect_attempts c = k :=
      disconnectLoop_first_false c k hk hck hprev 11 0 (by omega) (by omega)
    refine ⟨ha, ?_⟩
    simp only [disconnect, ha]
    rw [if_neg (by omega)]

theorem C6_disconnect_bounded_retry_witness :
    disconnect_attempts (fun _ => true) = 10 ∧
    disconnect (fun _ => true) = .error "Unable to disconnect from session." ∧
    disconnect (fun n => decide (n < 3)) = .ok 3 := by
  have h1 := (C6_disconnect_bounded_retry (fun _ => true)).1 (by decide)
  have h2 := (C6_disconnect_bounded_retry (fun n => decide (n < 3))).2 3
    (by decide) (by decide) (by decide)
  exact ⟨h1.1, h1.2, h2.2⟩

/-! ### C7: terminal-length restore at session end -/

/-- C7 counterexample: with an unset saved terminal length, an ASA session
still sends a pager-restore command, embedding the literal text `None`,
contradicting the claim that no restore command is sent for any OS family
when the saved length is unset. -/
theorem C7_asa_restore_counterexample :
    end_sends (some "ASA") (some "ciscoasa#") none none true =
      ["terminal pager None\n"] ∧
    end_sends (some "ASA") (some "ciscoasa#") none none true ≠ [] := by
  refine ⟨rfl, by decide⟩

/-- C7 amended: with an unset saved terminal length, IOS and NXOS sessions
send no length-restore command (only the width restore, and only when a
saved width exists); an ASA session sends the pager restore
unconditionally, embedding `None` when the saved length is unset. -/
theorem C7_terminal_restore_amended (os promptOpt term_width : Option String)
    (modifyTerm : Bool) :
    (os = some "IOS" ∨ os = some "NXOS" →
      end_sends os promptOpt none term_width modifyTerm =
        if pyTruthy promptOpt && modifyTerm && pyTruthy term_width
        then ["term width " ++ pyStr term_width ++ "\n"] else []) ∧
    (pyTruthy promptOpt = true → modifyTerm = true →
      end_sends (some "ASA") promptOpt none term_width modifyTerm =
        ["terminal pager None\n"]) := by
  constructor
  · intro hos
    rcases hos with h | h <;> subst h <;>
      cases hpp : pyTruthy promptOpt <;> cases modifyTerm <;>
      cases htw : pyTruthy term_width <;>
      simp [end_sends, hpp, htw, show pyTruthy none = false from rfl]
  · intro hp hm
    subst hm
    simp [end_sends, hp, pyStr]


theorem C7_terminal_restore_amended_witness :
    end_sends (some "NXOS") (some "switch#") none (some "80") true =
      ["term width 80\n"] ∧
    end_sends (some "IOS") (some "Router#") none none true = [] ∧
    end_sends (some "ASA") (some "asa#") none none true =
      ["terminal pager None\n"] := by
  have h1 := (C7_terminal_restore_amended (some "NXOS") (some "switch#")
    (some "80") true).1 (Or.inr rfl)
  have h2 := (C7_terminal_restore_amended (some "IOS") (some "Router#")
    none true).1 (Or.inl rfl)
  have h3 := (C7_terminal_restore_amended (some "ASA") (some "asa#")
    none true).2 (by decide) rfl
  exact ⟨by simpa using h1, by simpa using h2, h3⟩

/-! ### C10: in-place mutation of the command list -/

/-- C10: `send_config_commands` grows the list owned by the caller in
place: after any call the list starts with `configure terminal`, is one
element longer, and holds the original elements shifted by one. -/
theorem C10_command_list_mutation (command_list acks : List String)
    (finalRead prompt : String) :
    (send_config_commands prompt command_list acks finalRead).newList =
      "configure terminal" :: command_list ∧
    (send_config_commands prompt command_list acks finalRead).newList.length =
      command_list.length + 1 ∧
    (send_config_commands prompt command_list acks finalRead).newList.getD 0 "" =
      "configure terminal" ∧
    (∀ i, i < command_list.length →
      (send_config_commands prompt command_list acks finalRead).newList.getD
        (i + 1) "" = command_list.getD i "") := by
  have hnl : (send_config_commands prompt command_list acks finalRead).newList =
      "configure terminal" :: command_list := rfl
  refine ⟨hnl, by simp [hnl], by simp [hnl], ?_⟩
  intro i hi
  simp [hnl]

theorem C10_command_list_mutation_witness :
    (send_config_commands "Router#" ["interface g0/1", "shutdown"] [] "").newList =
      ["configure terminal", "interface g0/1", "shutdown"] ∧
    (send_config_commands "Router#" ["interface g0/1", "shutdown"] [] "").newList.getD
      1 "" = "interface g0/1" := by
  have h := C10_command_list_mutation ["interface g0/1", "shutdown"] [] "" "Router#"
  exact ⟨h.1, h.2.2.2 0 (by decide)⟩

/-! ### C3 and C8: config push -/

theorem configLoop_fail :
    ∀ (cmds acks : List String) (i : Nat), i < cmds.length →
    (∀ j, j < i → acks.getD j "" ≠ "") → acks.getD i "" = "" →
    (configLoop cmds acks).errorMsg =
      some ("Did not receive expected prompt after issuing command: " ++
        cmds.getD i "") ∧
    (configLoop cmds acks).sent = (cmds.take (i + 1)).map (fun c => c ++ "\n") := by
  intro cmds
  induction cmds with
  | nil =>
    intro acks i hi
    simp at hi
  | cons c cs ih =>
    intro acks i hi hbefore hfail
    cases i with
    | zero =>
      have hout : acks.head?.getD "" = "" := by
        cases acks with
        | nil => rfl
        | cons a as => simpa using hfail
      simp [configLoop, hout]
    | succ j =>
      cases acks with
      | nil =>
        exact absurd (by simp : ([] : List String).getD 0 "" = "")
          (hbefore 0 (Nat.succ_pos j))
      | cons a as =>
        have ha : a ≠ "" := by simpa using hbefore 0 (Nat.succ_pos j)
        have ihres := ih as j (by simpa using hi)
          (fun j' hj' => by simpa using hbefore (j' + 1) (by omega))
          (by simpa using hfail)
        simp [configLoop, ha, ihres.1, ihres.2, List.take_succ_cons]

theorem configLoop_ok :
    ∀ (cmds acks : List String),
    (∀ j, j < cmds.length → acks.getD j "" ≠ "") →
    (configLoop cmds acks).errorMsg = none ∧
    (configLoop cmds acks).sent = cmds.map (fun c => c ++ "\n") ∧
    (configLoop cmds acks).acc = ackSegments cmds acks ∧
    (configLoop cmds acks).reads = cmds.map (fun _ => (")#", configAckTimeout)) := by
  intro cmds
  induction cmds with
  | nil =>
    intro acks _
    simp [configLoop, ackSegments]
  | cons c cs ih =>
    intro acks h
    have h0 : acks.getD 0 "" ≠ "" := h 0 (by simp)
    cases acks with
    | nil => simp at h0
    | cons a as =>
      have ha : a ≠ "" := by simpa using h0
      have ihres := ih as (fun j hj => by simpa using h (j + 1) (by simpa using hj))
      simp [configLoop, ha, ackSegments, ihres.1, ihres.2.1, ihres.2.2.1,
        ihres.2.2.2]

/-- C3: with `configure terminal` prepended, the commands are sent in
order; at the first command whose acknowledgment read comes back empty
(the `)#` substring was not captured within the bound) the engine raises
the device-interaction error naming that command, and nothing after that
command is sent — neither later commands nor the closing `end`, so no
rollback is attempted. -/
theorem C3_config_push_stops_at_failure (command_list acks : List String)
    (finalRead prompt : String) (i : Nat)
    (hi : i < command_list.length + 1)
    (hbefore : ∀ j, j < i → acks.getD j "" ≠ "")
    (hfail : acks.getD i "" = "") :
    (send_config_commands prompt command_list acks finalRead).outcome =
      .error ("Did not receive expected prompt after issuing command: " ++
        ("configure terminal" :: command_list).getD i "") ∧
    (send_config_commands prompt command_list acks finalRead).sent =
      (("configure terminal" :: command_list).take (i + 1)).map
        (fun c => c ++ "\n") := by
  have hlem := configLoop_fail ("configure terminal" :: command_list) acks i
    (by simpa using hi) hbefore hfail
  constructor
  · simp only [send_config_commands, hlem.1]
  · simp only [send_config_commands, hlem.1, hlem.2]

theorem C3_config_push_stops_at_failure_witness :
    (send_config_commands "Router#" ["interface g0/1", "shutdown", "no shutdown"]
        ["ack0", "ack1", ""] "tail").outcome =
      .error "Did not receive expected prompt after issuing command: shutdown" ∧
    (send_config_commands "Router#" ["interface g0/1", "shutdown", "no shutdown"]
        ["ack0", "ack1", ""] "tail").sent =
      ["configure terminal\n", "interface g0/1\n", "shutdown\n"] := by
  have h := C3_config_push_stops_at_failure
    ["interface g0/1", "shutdown", "no shutdown"] ["ack0", "ack1", ""]
    "tail" "Router#" 2 (by decide) (by decide) (by decide)
  exact ⟨by simpa using h.1, by simpa using h.2⟩

/-- C8 counterexample: the bound of the final prompt read is
`configEndTimeout = 2`, which is not longer than the per-command
acknowledgment bound `configAckTimeout = 3`, as the trace of `ReadString`
calls of a concrete successful push shows. -/
theorem C8_end_timeout_counterexample :
    (send_config_commands "Router#" ["logging on"] ["a", "b"] "z").reads =
      [(")#", configAckTimeout), (")#", configAckTimeout),
       ("Router#", configEndTimeout)] ∧
    ¬ configAckTimeout < configEndTimeout := by
  exact ⟨rfl, by decide⟩

/-- C8 amended: after the command list is exhausted the engine sends `end`
and waits for the plain prompt with bound `configEndTimeout = 2` — shorter
than, not longer than, the per-command bound `configAckTimeout = 3` —
appends that final segment and the prompt, and writes the concatenated
transcript with every carriage return removed and every line feed
preserved. -/
theorem C8_config_epilogue_amended (command_list acks : List String)
    (finalRead prompt : String)
    (hok : ∀ j, j < command_list.length + 1 → acks.getD j "" ≠ "") :
    (send_config_commands prompt command_list acks finalRead).outcome =
      .ok (stripCR (ackSegments ("configure terminal" :: command_list) acks ++
        finalRead ++ prompt)) ∧
    (send_config_commands prompt command_list acks finalRead).sent =
      (("configure terminal" :: command_list).map (fun c => c ++ "\n")) ++
        ["end\n"] ∧
    (send_config_commands prompt command_list acks finalRead).reads =
      (("configure terminal" :: command_list).map
        (fun _ => (")#", configAckTimeout))) ++ [(prompt, configEndTimeout)] ∧
    configEndTimeout < configAckTimeout ∧
    (stripCR (ackSegments ("configure terminal" :: command_list) acks ++
      finalRead ++ prompt)).data.count '\r' = 0 ∧
    (stripCR (ackSegments ("configure terminal" :: command_list) acks ++
      finalRead ++ prompt)).data.count '\n' =
      (ackSegments ("configure terminal" :: command_list) acks ++
        finalRead ++ prompt).data.count '\n' := by
  have hlem := configLoop_ok ("configure terminal" :: command_list) acks
    (by simpa using hok)
  refine ⟨?_, ?_, ?_, by decide, stripCR_no_cr _, stripCR_keeps_lf _⟩
  · simp only [send_config_commands, hlem.1, hlem.2.2.1]
  · simp only [send_config_commands, hlem.1, hlem.2.1]
  · simp only [send_config_commands, hlem.1, hlem.2.2.2]

theorem C8_config_epilogue_amended_witness :
    (send_config_commands "Router#" ["logging on"] ["echo1\r\n", "echo2\r\n"]
        "fin\r\n").outcome = .ok "echo1\n)#echo2\n)#fin\nRouter#" ∧
    configEndTimeout < configAckTimeout := by
  have h := C8_config_epilogue_amended ["logging on"] ["echo1\r\n", "echo2\r\n"]
    "fin\r\n" "Router#" (by decide)
  have hs : stripCR (ackSegments ("configure terminal" :: ["logging on"])
      ["echo1\r\n", "echo2\r\n"] ++ "fin\r\n" ++ "Router#") =
      "echo1\n)#echo2\n)#fin\nRouter#" := by decide
  exact ⟨by rw [h.1, hs], h.2.2.2.1⟩

/-! ### C1: output capture round trip -/

theorem captureLoop_script (p : String) :
    ∀ (evs : List CaptureEvent),
    (∀ e ∈ evs, nonTerminal e = true) →
    (∀ e ∈ evs, cleanLineEvent e = true) →
    captureLoop (evs ++ [.promptEnd p]) =
      .ok ((evs.filterMap eventLine).filter (fun l => l ≠ ""),
           (evs.filter isPagerEvent).map (fun _ => " ")) := by
  intro evs
  induction evs with
  | nil =>
    intro _ _
    simp [captureLoop]
  | cons e rest ih =>
    intro hk hc
    have hke := hk e (by simp)
    have hce := hc e (by simp)
    have ihr := ih (fun x hx => hk x (by simp [hx])) (fun x hx => hc x (by simp [hx]))
    cases e with
    | lineEnd s =>
      by_cases hs : s = ""
      · subst hs
        have hpl : processLine "" = none := rfl
        simp [captureLoop, hpl, ihr, eventLine, isPagerEvent]
      · have hcl : processLine s = some s := by
          have hb := hce
          simp [cleanLineEvent, hs] at hb
          exact hb
        simp [captureLoop, hcl, ihr, eventLine, isPagerEvent, hs, Except.map]
    | pager s =>
      simp [captureLoop, ihr, eventLine, isPagerEvent, Except.map]
    | promptEnd s => simp [nonTerminal] at hke
    | timeout => simp [nonTerminal] at hke

/-- C1: over a scripted channel carrying only line and pager events
followed by the prompt, the capture engine terminates successfully at the
prompt, writes exactly the non-empty lines in their original order, sends
a single space per pager match and emits nothing for it, and no pager
token appears in the sink when none appears in the scripted lines. -/
theorem C1_output_capture_round_trip (command p pagerToken : String)
    (evs : List CaptureEvent)
    (hkind : ∀ e ∈ evs, nonTerminal e = true)
    (hclean : ∀ e ∈ evs, cleanLineEvent e = true)
    (htok : ∀ e ∈ evs, tokFree pagerToken e = true) :
    write_output_to_file command (evs ++ [.promptEnd p]) =
      .ok ⟨(evs.filterMap eventLine).filter (fun l => l ≠ ""),
           (command ++ "\n") :: (evs.filter isPagerEvent).map (fun _ => " ")⟩ ∧
    ∀ l ∈ (evs.filterMap eventLine).filter (fun l => l ≠ ""),
      isSubstr pagerToken l = false := by
  constructor
  · simp [write_output_to_file, captureLoop_script p evs hkind hclean, Except.map]
  · intro l hl
    obtain ⟨hlm, -⟩ := List.mem_filter.mp hl
    obtain ⟨e, he, heq⟩ := List.mem_filterMap.mp hlm
    have hte := htok e he
    cases e with
    | lineEnd s =>
      have hsl : s = l := by simpa [eventLine] using heq
      subst hsl
      simpa [tokFree] using hte
    | pager s => simp [eventLine] at heq
    | promptEnd s => simp [eventLine] at heq
    | timeout => simp [eventLine] at heq

theorem C1_output_capture_round_trip_witness :
    write_output_to_file "show run"
        ([.lineEnd "interface GigabitEthernet0/1", .pager "", .lineEnd "",
          .lineEnd " description uplink", .pager "",
          .lineEnd "ip address 10.0.0.1 255.255.255.0"] ++
          [.promptEnd "Router#"]) =
      .ok ⟨["interface GigabitEthernet0/1", " description uplink",
            "ip address 10.0.0.1 255.255.255.0"],
           ["show run\n", " ", " "]⟩ ∧
    isSubstr "--More--" " description uplink" = false := by
  have h := C1_output_capture_round_trip "show run" "Router#" "--More--"
    [.lineEnd "interface GigabitEthernet0/1", .pager "", .lineEnd "",
     .lineEnd " description uplink", .pager "",
     .lineEnd "ip address 10.0.0.1 255.255.255.0"]
    (by decide) (by decide) (by decide)
  refine ⟨?_, by decide⟩
  rw [h.1]
  simp only [Except.ok.injEq]
  decide

/-! ### C5: prompt-discovery timeout and the session-setup caller -/

/-- C5: when the initial wait for a newline times out, `__get_prompt`
returns the incomplete-discovery sentinel rather than raising; the
session-setup caller `__start` then still executes the hostname
derivation `self.prompt[:-1]` on that sentinel, which raises an unguarded
`TypeError`, and the OS-discovery probe is never issued. -/
theorem C5_start_timeout_behavior :
    get_prompt ⟨false, ""⟩ = none ∧
    start_session ⟨false, ""⟩ "Cisco IOS Software" =
      ⟨.typeError, true, false⟩ ∧
    (start_session ⟨false, ""⟩ "Cisco IOS Software").hostnameDerived = true ∧
    (start_session ⟨false, ""⟩ "Cisco IOS Software").osDiscoveryRan = false :=
  ⟨rfl, rfl, rfl, rfl⟩

end Sessions
